import Mathlib

/-!
Verification of the ScanQR core: deduplication engine, scan store,
sync coordinator.

Shallow embedding of the scan-event deduplication engine, the local scan
store and the server synchronisation routine of the ScanQR repository
(main screen in `src/unnamed/part_000`, first component, and its near
duplicate `src/app/index.tsx`; a legacy screen variant follows in the
second component of `src/unnamed/part_000`).

Timestamps are modelled as `Int` (JavaScript `Date.now()` returns a
number and the code only subtracts and compares). The `src/database`
module is not part of the sources; its operations are modelled from the
specification where needed and marked as such.
-/

namespace ScanQR

/-- Constant `SCAN_COOLDOWN = 3000` ms between scans of the same code
(`part_000` line 49). -/
def SCAN_COOLDOWN : Int := 3000

/-- Constant `PROCESSING_TIMEOUT = 1000` ms to process one scan
(`part_000` line 50). -/
def PROCESSING_TIMEOUT : Int := 1000

/-- The mutable refs controlling scanning in the main screen
(`part_000` lines 43-46): `lastScannedCode`, `lastScannedTime`,
`isProcessingRef`. -/
structure DedupState where
  lastScannedCode : String
  lastScannedTime : Int
  isProcessing : Bool
deriving DecidableEq, Repr

/-- Initial ref values: `useRef("")`, `useRef(0)`, `useRef(false)`. -/
def initialDedupState : DedupState :=
  { lastScannedCode := "", lastScannedTime := 0, isProcessing := false }

/-- Outcome of the guard section of `onBarcodeScanned`
(`part_000` lines 103-118): ignore because already processing, ignore
because the same code is too recent, or proceed (accept). -/
inductive Decision where
  | accept
  | rejectBusy
  | rejectDuplicate
deriving DecidableEq, Repr

/-- The decision logic at the top of `onBarcodeScanned`
(`part_000` lines 103-113): first the `isProcessingRef.current` check,
then the same-code-within-cooldown check. -/
def decide (d : DedupState) (data : String) (currentTime : Int) : Decision :=
  if d.isProcessing then
    Decision.rejectBusy
  else if d.lastScannedCode = data ∧ currentTime - d.lastScannedTime < SCAN_COOLDOWN then
    Decision.rejectDuplicate
  else
    Decision.accept

/-- The ref updates performed on acceptance (`part_000` lines 116-118):
mark as processing, record the code and the time. -/
def acceptUpdate (data : String) (currentTime : Int) : DedupState :=
  { lastScannedCode := data, lastScannedTime := currentTime, isProcessing := true }

/-- The timer callback scheduled in the `finally` block
(`part_000` lines 141-144): clear the processing flag. -/
def release (d : DedupState) : DedupState :=
  { d with isProcessing := false }

/-- A step of the engine as observed from outside: either a decode event
reaches `onBarcodeScanned`, or the scheduled release timer fires. -/
inductive DedupEvent where
  | scan (data : String) (t : Int)
  | autoRelease
deriving DecidableEq, Repr

/-- One event step over the dedup refs. A scan applies `decide` and, on
acceptance, the `acceptUpdate` ref writes; rejected scans return before
touching any ref. A release clears the flag. -/
def stepEvent (d : DedupState) : DedupEvent → DedupState × Option Decision
  | DedupEvent.scan data t =>
      match decide d data t with
      | Decision.accept => (acceptUpdate data t, some Decision.accept)
      | r => (d, some r)
  | DedupEvent.autoRelease => (release d, none)

/-- Run a list of events, collecting the decision of every scan event. -/
def runEvents (d : DedupState) : List DedupEvent → DedupState × List Decision
  | [] => (d, [])
  | ev :: evs =>
      ((runEvents (stepEvent d ev).1 evs).1,
        (stepEvent d ev).2.toList ++ (runEvents (stepEvent d ev).1 evs).2)

/-! ## The scan store (`src/database`, modelled from the spec)

The repository imports `connectDb` and `Database` from `../src/database`,
whose source is not included. The operations used by the screens
(`existeCodigo`, `insertarCodigo`, `consultarCodigos`,
`obtenerEstadisticas`, `eliminarCodigo`, `limpiarCodigos`) are modelled
from the specification. -/

/-- A stored scan record (`ScannedCode` from `src/models`, modelled from
the spec: identifier, payload string, symbology tag, creation
timestamp). -/
structure ScannedCode where
  id : String
  data : String
  type : String
  timestamp : Int
deriving DecidableEq, Repr

/-- The backing collection, with a counter supplying fresh identifiers.
Records are kept most-recent-first (inserts prepend). -/
structure Store where
  records : List ScannedCode
  nextId : Nat
deriving DecidableEq, Repr

/-- The store holding no records. -/
def emptyStore : Store := { records := [], nextId := 0 }

/-- Modelled from the spec: `existeCodigo(payload)` of `src/database` is
true if any stored record has this payload. -/
def existeCodigo (s : Store) (data : String) : Bool :=
  s.records.any (fun r => r.data = data)

/-- Modelled from the spec: `insertarCodigo(payload, typeTag)` of
`src/database` always creates a new record, assigning a fresh unique
identifier and the current timestamp; it never dedupes across history. -/
def insertarCodigo (s : Store) (data ty : String) (currentTime : Int) : Store :=
  { records := { id := toString s.nextId, data := data, type := ty,
                 timestamp := currentTime } :: s.records,
    nextId := s.nextId + 1 }

/-- Modelled from the spec: `consultarCodigos()` of `src/database`
returns the finite record sequence, most-recent-first. -/
def consultarCodigos (s : Store) : List ScannedCode :=
  s.records

/-- Modelled from the spec: `eliminarCodigo(id)` of `src/database`
removes the record with the given identifier, a no-op if absent. -/
def eliminarCodigo (s : Store) (i : String) : Store :=
  { s with records := s.records.filter (fun r => r.id ≠ i) }

/-- Modelled from the spec: `limpiarCodigos()` of `src/database` removes
every record. -/
def limpiarCodigos (s : Store) : Store :=
  { s with records := [] }

/-- Number of records carrying a given symbology tag. -/
def countType (records : List ScannedCode) (ty : String) : Nat :=
  (records.filter (fun r => r.type = ty)).length

/-- Aggregate statistics as consumed by the screen: `total`, `porTipo`
(tag-to-count mapping) and `ultimoEscaneo` (timestamp of the most recent
insertion, none if empty). -/
structure Stats where
  total : Nat
  porTipo : List (String × Nat)
  ultimoEscaneo : Option Int
deriving DecidableEq, Repr

/-- Modelled from the spec: `obtenerEstadisticas()` of `src/database`
recomputes the aggregate statistics from the stored records. -/
def obtenerEstadisticas (s : Store) : Stats :=
  { total := s.records.length,
    porTipo := ((s.records.map (fun r => r.type)).eraseDups).map
      (fun ty => (ty, countType s.records ty)),
    ultimoEscaneo := (s.records.head?).map (fun r => r.timestamp) }

/-! ## The scan handler (`onBarcodeScanned`, `part_000` lines 99-146)

The handler is modelled as a function of the dedup refs, the optional
database connection (`db` is `none` when `connectDb` never succeeded)
and a flag describing whether the backing storage fails during this
call (in which case the first awaited database operation throws and
control reaches the `catch` block). Its result gathers the new ref
values, the new store, the notifications and alerts shown, and whether
the `finally` block scheduled the release timer. -/

/-- How a decode event fared in `onBarcodeScanned`: returned at the
busy guard, returned at the same-code-cooldown guard, or processed. -/
inductive ScanOutcome where
  | rejectedBusy
  | rejectedDuplicate
  | accepted
deriving DecidableEq, Repr

/-- Observable result of one `onBarcodeScanned` call. -/
structure HandlerResult where
  dedup : DedupState
  db : Option Store
  notifications : List String
  alerts : List String
  outcome : ScanOutcome
  timerScheduled : Bool
deriving DecidableEq, Repr

/-- Handler `onBarcodeScanned` (`part_000` lines 99-146). Guards first (lines
103-113, returning with no side effect); then the ref writes (lines
116-118); then the try block: with a connected database it checks
`existeCodigo`, notifying `Código ya escaneado` without inserting when
true, and notifying `Nuevo código escaneado` then inserting when false
(lines 122-135). A storage failure lands in the catch block's alert
(lines 136-138). The `finally` block schedules the release timer in
every processed path (lines 139-145). -/
def onBarcodeScanned (d : DedupState) (db : Option Store) (storageFails : Bool)
    (data ty : String) (currentTime : Int) : HandlerResult :=
  match decide d data currentTime with
  | Decision.rejectBusy =>
      { dedup := d, db := db, notifications := [], alerts := [],
        outcome := ScanOutcome.rejectedBusy, timerScheduled := false }
  | Decision.rejectDuplicate =>
      { dedup := d, db := db, notifications := [], alerts := [],
        outcome := ScanOutcome.rejectedDuplicate, timerScheduled := false }
  | Decision.accept =>
      let d' := acceptUpdate data currentTime
      match db with
      | none =>
          { dedup := d', db := none, notifications := [], alerts := [],
            outcome := ScanOutcome.accepted, timerScheduled := true }
      | some s =>
          if storageFails then
            { dedup := d', db := some s, notifications := [],
              alerts := ["No se pudo procesar el código escaneado"],
              outcome := ScanOutcome.accepted, timerScheduled := true }
          else if existeCodigo s data then
            { dedup := d', db := some s,
              notifications := ["Código ya escaneado: " ++ data], alerts := [],
              outcome := ScanOutcome.accepted, timerScheduled := true }
          else
            { dedup := d', db := some (insertarCodigo s data ty currentTime),
              notifications := ["Nuevo código escaneado: " ++ data], alerts := [],
              outcome := ScanOutcome.accepted, timerScheduled := true }

/-! ## Release timing (`finally` block, `part_000` lines 139-145)

On a processed scan the handler awaits its downstream work (existence
check, notification, insert, refresh) and only then, in the `finally`
block, calls `setTimeout(..., PROCESSING_TIMEOUT)`. With `dur ≥ 0` the
duration of that downstream work, the timer therefore fires at
`acceptTime + dur + PROCESSING_TIMEOUT`. -/

/-- Instant at which the scheduled release callback clears
`isProcessingRef`, for a scan accepted at `acceptTime` whose downstream
processing takes `dur` milliseconds. -/
def releaseFireTime (acceptTime dur : Int) : Int :=
  acceptTime + dur + PROCESSING_TIMEOUT

/-- Whether the processing flag is set at instant `t`, for a scan
accepted at `acceptTime` with downstream duration `dur` and no other
intervening events: set from acceptance until the release fires. -/
def processingFlagAt (acceptTime dur t : Int) : Bool :=
  if acceptTime ≤ t ∧ t < releaseFireTime acceptTime dur then true else false

/-- The dedup refs at instant `t` after a scan of `data` was accepted at
`acceptTime` (downstream duration `dur`), with no other intervening
events. -/
def dedupStateAt (data : String) (acceptTime dur t : Int) : DedupState :=
  { lastScannedCode := data, lastScannedTime := acceptTime,
    isProcessing := processingFlagAt acceptTime dur t }

/-! ## Data refresh, delete and clear (`part_000` lines 86-96, 226-260) -/

/-- The error surfaced by a failing storage backend (spec taxonomy:
backend unreachable or corrupt). -/
inductive StorageError where
  | backendFailure
deriving DecidableEq, Repr

/-- The screen state written by `updateData`: the list shown and the
aggregate statistics. -/
structure UiState where
  scannedCodes : List ScannedCode
  stats : Stats
deriving DecidableEq, Repr

/-- Observable result of one `updateData` call: the screen state
afterwards, the console log entries, the alerts shown, and any error
propagated to the caller. -/
structure UpdateResult where
  ui : UiState
  logged : List String
  alerts : List String
  propagatedError : Option StorageError
deriving DecidableEq, Repr

/-- Refresh `updateData` (`part_000` lines 86-96): awaits `consultarCodigos` and
`obtenerEstadisticas`, then writes both screen states; any storage
failure lands in the catch block, which only writes a console log —
the previous screen state is kept, no alert is shown and no error is
returned to the caller. -/
def updateData (ui : UiState) (consultar : Except StorageError (List ScannedCode))
    (estadisticas : Except StorageError Stats) : UpdateResult :=
  match consultar with
  | Except.error _ =>
      { ui := ui, logged := ["Error actualizando datos"], alerts := [],
        propagatedError := none }
  | Except.ok codes =>
      match estadisticas with
      | Except.error _ =>
          { ui := ui, logged := ["Error actualizando datos"], alerts := [],
            propagatedError := none }
      | Except.ok st =>
          { ui := { scannedCodes := codes, stats := st }, logged := [],
            alerts := [], propagatedError := none }

/-- Observable result of a store mutation triggered from the screen:
the store afterwards, the alerts shown, the console log entries, and
how many times the backend mutation was invoked. -/
structure OpResult where
  db : Option Store
  alerts : List String
  logged : List String
  attempts : Nat
deriving DecidableEq, Repr

/-- Deletion `deleteCode` (`part_000` lines 249-260): with a connected database,
one `eliminarCodigo` attempt; a storage failure is logged and surfaced
as the alert `No se pudo eliminar el código`, with no retry. -/
def deleteCode (db : Option Store) (deleteFails : Bool) (i : String) : OpResult :=
  match db with
  | none => { db := none, alerts := [], logged := [], attempts := 0 }
  | some s =>
      if deleteFails then
        { db := some s, alerts := ["No se pudo eliminar el código"],
          logged := ["Error eliminando código"], attempts := 1 }
      else
        { db := some (eliminarCodigo s i), alerts := [], logged := [],
          attempts := 1 }

/-- The confirmed branch of `clearScannedCodes` (`part_000` lines
226-247): with a connected database, one `limpiarCodigos` attempt; on
success the alert `Historial limpiado`, on storage failure a log and
the alert `No se pudo limpiar el historial`, with no retry. -/
def clearScannedCodes (db : Option Store) (clearFails : Bool) : OpResult :=
  match db with
  | none => { db := none, alerts := [], logged := [], attempts := 0 }
  | some s =>
      if clearFails then
        { db := some s, alerts := ["No se pudo limpiar el historial"],
          logged := ["Error limpiando códigos"], attempts := 1 }
      else
        { db := some (limpiarCodigos s), alerts := ["Historial limpiado"],
          logged := [], attempts := 1 }

/-! ## Server synchronisation (`syncWithServer`, `part_000` lines 148-193)

The `fetch` calls are modelled by a deterministic success predicate
`sendOk` on records (`fetch` resolving or rejecting); the routine
returns the alert shown together with the list of HTTP requests
issued. -/

/-- A JSON field value appearing in a request body. -/
inductive JsonValue where
  | str (s : String)
  | num (n : Int)
deriving DecidableEq, Repr

/-- One HTTP request as issued by `fetch` in the sync loops. -/
structure HttpRequest where
  path : String
  method : String
  accept : String
  contentType : String
  body : List (String × JsonValue)
deriving DecidableEq, Repr

/-- The request built for one record by the main screen's sync loop
(`part_000` lines 169-181, identically `src/app/index.tsx` lines
145-157): `POST` to `/codigos`, content type
`application/json;encoding=utf-8`, body with the `data`, `type` and
`timestamp` fields of the record. -/
def mkRequest (c : ScannedCode) : HttpRequest :=
  { path := "/codigos", method := "POST",
    accept := "application/json;encoding=utf-8",
    contentType := "application/json;encoding=utf-8",
    body := [("data", JsonValue.str c.data), ("type", JsonValue.str c.type),
             ("timestamp", JsonValue.num c.timestamp)] }

/-- The request built for one record by the legacy screen variant's sync
loop (`part_000` lines 740-753): same endpoint and headers, but the
body carries only the `data` and `type` fields — no `timestamp`. -/
def mkRequestLegacy (c : ScannedCode) : HttpRequest :=
  { path := "/codigos", method := "POST",
    accept := "application/json;encoding=utf-8",
    contentType := "application/json;encoding=utf-8",
    body := [("data", JsonValue.str c.data), ("type", JsonValue.str c.type)] }

/-- The `for (const code of scannedCodes)` loop (`part_000` lines
169-182): each record is sent in order; a rejected `fetch` throws, so
the loop stops with that attempt as its last request. Returns the
requests issued and whether the whole loop completed. -/
def syncLoop (sendOk : ScannedCode → Bool) : List ScannedCode → List HttpRequest × Bool
  | [] => ([], true)
  | c :: rest =>
      if sendOk c then
        (mkRequest c :: (syncLoop sendOk rest).1, (syncLoop sendOk rest).2)
      else
        ([mkRequest c], false)

/-- The alert shown by one `syncWithServer` call: the four alert paths
of `part_000` lines 148-193. Only the local-mode and success alerts
interpolate a count; the failure alert is a fixed message. -/
inductive SyncOutcome where
  | noCodesAlert
  | localModeAlert (count : Nat)
  | successAlert (count : Nat)
  | failureAlert
deriving DecidableEq, Repr

/-- The literal alert message text of each sync outcome. -/
def alertText : SyncOutcome → String
  | SyncOutcome.noCodesAlert => "No hay códigos para sincronizar"
  | SyncOutcome.localModeAlert n =>
      "Estás trabajando en modo local. Tienes " ++ toString n ++
        " códigos almacenados localmente."
  | SyncOutcome.successAlert n =>
      "Se han sincronizado " ++ toString n ++ " códigos con el servidor"
  | SyncOutcome.failureAlert =>
      "No se pudieron sincronizar los códigos. Verifica tu conexión."

/-- Synchronisation `syncWithServer` (`part_000` lines 148-193): empty list short-circuit
(lines 150-153), local-mode notice with the stored count and no network
activity (lines 158-167), otherwise the sequential send loop followed
by the success alert, with any rejection caught as the fixed failure
alert (lines 169-187). -/
def syncWithServer (isLocalMode : Bool) (scannedCodes : List ScannedCode)
    (sendOk : ScannedCode → Bool) : SyncOutcome × List HttpRequest :=
  if scannedCodes.length = 0 then
    (SyncOutcome.noCodesAlert, [])
  else if isLocalMode then
    (SyncOutcome.localModeAlert scannedCodes.length, [])
  else
    if (syncLoop sendOk scannedCodes).2 then
      (SyncOutcome.successAlert scannedCodes.length, (syncLoop sendOk scannedCodes).1)
    else
      (SyncOutcome.failureAlert, (syncLoop sendOk scannedCodes).1)

/-! ## Theorems -/

/-- The shape of events allowed after a first acceptance of payload `p`
at time `t1`: any release, and scans carrying the identical payload
whose timestamp falls within `SCAN_COOLDOWN` of `t1`. -/
def withinWindowOf (p : String) (t1 : Int) : DedupEvent → Prop
  | DedupEvent.scan q t => q = p ∧ t1 ≤ t ∧ t - t1 < SCAN_COOLDOWN
  | DedupEvent.autoRelease => True

instance (p : String) (t1 : Int) (ev : DedupEvent) : Decidable (withinWindowOf p t1 ev) :=
  match ev with
  | DedupEvent.scan q t =>
      inferInstanceAs (Decidable (q = p ∧ t1 ≤ t ∧ t - t1 < SCAN_COOLDOWN))
  | DedupEvent.autoRelease => inferInstanceAs (Decidable True)

/-- Invariant run lemma: from any state whose last-accepted pair is
`(p, t1)`, a run of releases and same-payload scans within the cooldown
window rejects every scan (busy or duplicate) and keeps the pair. -/
theorem runEvents_window_rejects (p : String) (t1 : Int) (evs : List DedupEvent)
    (d : DedupState) (hcode : d.lastScannedCode = p) (htime : d.lastScannedTime = t1)
    (hevs : ∀ ev ∈ evs, withinWindowOf p t1 ev) :
    (∀ r ∈ (runEvents d evs).2,
        r = Decision.rejectBusy ∨ r = Decision.rejectDuplicate) ∧
    (runEvents d evs).1.lastScannedCode = p ∧
    (runEvents d evs).1.lastScannedTime = t1 := by
  induction evs generalizing d with
  | nil =>
      refine ⟨?_, hcode, htime⟩
      intro r hr
      simp [runEvents] at hr
  | cons ev evs ih =>
      cases ev with
      | scan q t =>
          obtain ⟨hq, _, hlt⟩ := hevs (DedupEvent.scan q t) (by simp)
          have hdec : decide d q t = Decision.rejectBusy ∨
              decide d q t = Decision.rejectDuplicate := by
            by_cases hp : d.isProcessing
            · left
              simp [decide, hp]
            · right
              simp [decide, hp, hcode, htime, hq, hlt]
          have hrest : ∀ ev ∈ evs, withinWindowOf p t1 ev := by
            intro e he
            exact hevs e (by simp [he])
          have ih' := ih d hcode htime hrest
          have hstep : stepEvent d (DedupEvent.scan q t) = (d, some (decide d q t)) := by
            rcases hdec with h | h <;> simp [stepEvent, h]
          have hrun : runEvents d (DedupEvent.scan q t :: evs) =
              ((runEvents d evs).1, decide d q t :: (runEvents d evs).2) := by
            simp [runEvents, hstep]
          refine ⟨?_, ?_, ?_⟩
          · intro r hr
            rw [hrun] at hr
            rcases List.mem_cons.mp hr with hr | hr
            · rw [hr]
              exact hdec
            · exact ih'.1 r hr
          · rw [hrun]
            exact ih'.2.1
          · rw [hrun]
            exact ih'.2.2
      | autoRelease =>
          have hrest : ∀ ev ∈ evs, withinWindowOf p t1 ev := by
            intro e he
            exact hevs e (by simp [he])
          have ih' := ih (release d) (by simp [release, hcode])
            (by simp [release, htime]) hrest
          have hrun : runEvents d (DedupEvent.autoRelease :: evs) =
              runEvents (release d) evs := by
            simp [runEvents, stepEvent]
          refine ⟨?_, ?_, ?_⟩
          · intro r hr
            rw [hrun] at hr
            exact ih'.1 r hr
          · rw [hrun]
            exact ih'.2.1
          · rw [hrun]
            exact ih'.2.2

/-- C1: for a sequence of decode events with identical payload whose
timestamps all fall within `SCAN_COOLDOWN` (3000 ms) of the first
acceptance, the first event alone is accepted — and the acceptance
records the payload and the decode timestamp as the new last-accepted
pair — while every later event, whatever releases the timer interleaves,
is rejected as busy or as a duplicate. -/
theorem c1_only_first_accepted_within_cooldown
    (d0 : DedupState) (p : String) (t1 : Int) (evs : List DedupEvent)
    (hacc : decide d0 p t1 = Decision.accept)
    (hevs : ∀ ev ∈ evs, withinWindowOf p t1 ev) :
    stepEvent d0 (DedupEvent.scan p t1) =
      ({ lastScannedCode := p, lastScannedTime := t1, isProcessing := true },
        some Decision.accept) ∧
    ∀ r ∈ (runEvents (acceptUpdate p t1) evs).2,
      r = Decision.rejectBusy ∨ r = Decision.rejectDuplicate := by
  constructor
  · simp [stepEvent, hacc, acceptUpdate]
  · exact (runEvents_window_rejects p t1 evs (acceptUpdate p t1) rfl rfl hevs).1

/-- Witness for C1: from the initial state, payload `A` accepted at
1000 ms; repeats at 1500 ms and (after the auto release) at 2500 ms are
both rejected. -/
theorem c1_only_first_accepted_within_cooldown_witness :
    decide initialDedupState "A" 1000 = Decision.accept ∧
    (∀ ev ∈ [DedupEvent.scan "A" 1500, DedupEvent.autoRelease,
        DedupEvent.scan "A" 2500], withinWindowOf "A" 1000 ev) ∧
    (stepEvent initialDedupState (DedupEvent.scan "A" 1000) =
      ({ lastScannedCode := "A", lastScannedTime := 1000, isProcessing := true },
        some Decision.accept) ∧
    ∀ r ∈ (runEvents (acceptUpdate "A" 1000) [DedupEvent.scan "A" 1500,
        DedupEvent.autoRelease, DedupEvent.scan "A" 2500]).2,
      r = Decision.rejectBusy ∨ r = Decision.rejectDuplicate) :=
  ⟨by decide, by decide,
    c1_only_first_accepted_within_cooldown initialDedupState "A" 1000
      [DedupEvent.scan "A" 1500, DedupEvent.autoRelease, DedupEvent.scan "A" 2500]
      (by decide) (by decide)⟩

/-- C2: while the processing flag is set, every decode event is rejected
busy, regardless of payload and timestamp; a whole run of scan events
(no release firing) leaves the state untouched and rejects every one of
them busy. -/
theorem c2_busy_rejects_all (d : DedupState) (h : d.isProcessing = true)
    (scans : List (String × Int)) :
    (∀ q t, decide d q t = Decision.rejectBusy) ∧
    runEvents d (scans.map (fun s => DedupEvent.scan s.1 s.2)) =
      (d, scans.map (fun _ => Decision.rejectBusy)) := by
  have hdec : ∀ q t, decide d q t = Decision.rejectBusy := by
    intro q t
    simp [decide, h]
  refine ⟨hdec, ?_⟩
  induction scans with
  | nil => simp [runEvents]
  | cons s rest ih =>
      simp [runEvents, stepEvent, hdec s.1 s.2, ih]

/-- A concrete state with the processing flag set, for the C2 witness. -/
def busyState : DedupState :=
  { lastScannedCode := "x", lastScannedTime := 5, isProcessing := true }

/-- Witness for C2: with the flag set, three decode events with varied
payloads and timestamps are all rejected busy and change nothing. -/
theorem c2_busy_rejects_all_witness :
    busyState.isProcessing = true ∧
    ((∀ q t, decide busyState q t = Decision.rejectBusy) ∧
      runEvents busyState
          ([("a", (1 : Int)), ("x", 99999), ("b", 6)].map
            (fun s => DedupEvent.scan s.1 s.2)) =
        (busyState,
          [("a", (1 : Int)), ("x", 99999), ("b", 6)].map
            (fun _ => Decision.rejectBusy))) :=
  ⟨rfl, c2_busy_rejects_all busyState rfl [("a", 1), ("x", 99999), ("b", 6)]⟩

/-- C3 counterexample: a scan accepted at instant 0 whose downstream
processing takes 2000 ms. At instant 1500, `PROCESSING_TIMEOUT`
(1000 ms) has elapsed since the acceptance and the downstream work is
still pending, yet the processing flag is still set: the release timer
is only started by the `finally` block once the downstream work has
settled, so it has not even been scheduled yet. -/
theorem c3_counterexample :
    PROCESSING_TIMEOUT ≤ (1500 : Int) - 0 ∧
    (1500 : Int) < 0 + 2000 ∧
    processingFlagAt 0 2000 1500 = true := by
  decide

/-- C3 (amended): the release timer is scheduled by the `finally` block
when the downstream work settles, so after an acceptance at `t1` with
downstream duration `dur` the flag clears automatically at
`t1 + dur + PROCESSING_TIMEOUT`; a new event with the same payload
arriving at any `t2` past that release instant and past the cooldown
window yields `Accept`. -/
theorem c3_release_after_settle_then_accept
    (p : String) (t1 dur t2 : Int)
    (hrel : releaseFireTime t1 dur ≤ t2)
    (hcool : SCAN_COOLDOWN ≤ t2 - t1) :
    processingFlagAt t1 dur t2 = false ∧
    decide (dedupStateAt p t1 dur t2) p t2 = Decision.accept := by
  have hnotlt : ¬ t2 < releaseFireTime t1 dur := not_lt.mpr hrel
  have hflag : processingFlagAt t1 dur t2 = false := by
    simp [processingFlagAt, hnotlt]
  refine ⟨hflag, ?_⟩
  have hnotcool : ¬ t2 - t1 < SCAN_COOLDOWN := not_lt.mpr hcool
  simp [decide, dedupStateAt, hflag, hnotcool]

/-- Witness for C3 (amended): payload `A` accepted at 0 ms with 500 ms of
downstream work; at 3000 ms the flag is clear and the same payload is
accepted again. -/
theorem c3_release_after_settle_then_accept_witness :
    releaseFireTime 0 500 ≤ (3000 : Int) ∧
    SCAN_COOLDOWN ≤ (3000 : Int) - 0 ∧
    (processingFlagAt 0 500 3000 = false ∧
      decide (dedupStateAt "A" 0 500 3000) "A" 3000 = Decision.accept) :=
  ⟨by decide, by decide,
    c3_release_after_settle_then_accept "A" 0 500 3000 (by decide) (by decide)⟩

/-- On an accepting decision, the handler's ref state is `acceptUpdate`
and the event counts as processed, whatever the database does. -/
theorem onBarcodeScanned_accept_dedup (d0 : DedupState) (db : Option Store)
    (storageFails : Bool) (data ty : String) (t : Int)
    (hacc : decide d0 data t = Decision.accept) :
    (onBarcodeScanned d0 db storageFails data ty t).dedup = acceptUpdate data t ∧
    (onBarcodeScanned d0 db storageFails data ty t).outcome =
      ScanOutcome.accepted := by
  unfold onBarcodeScanned
  rw [hacc]
  rcases db with _ | s
  · exact ⟨rfl, rfl⟩
  · by_cases hf : storageFails
    · simp [hf]
    · by_cases he : existeCodigo s data
      · simp [hf, he]
      · simp [hf, he]

/-- On an accepting decision where persistence cannot happen (no
database, or the storage throws), the store is unchanged. -/
theorem onBarcodeScanned_accept_db_unchanged (d0 : DedupState)
    (db : Option Store) (storageFails : Bool) (data ty : String) (t : Int)
    (hacc : decide d0 data t = Decision.accept)
    (hfail : db = none ∨ storageFails = true) :
    (onBarcodeScanned d0 db storageFails data ty t).db = db := by
  unfold onBarcodeScanned
  rw [hacc]
  rcases hfail with h | h
  · subst h
    rfl
  · rcases db with _ | s
    · rfl
    · simp [h]

/-- C9: on acceptance the dedup refs are written before any persistence
is attempted; with persistence failing (storage error) or with no
database connection, the refs still hold the new pair with the flag set
and nothing is stored, so a repeat of the same payload within the
cooldown window is rejected — busy while the flag is set, and
precisely as a duplicate once the release has fired. -/
theorem c9_dedup_state_before_persistence
    (d0 : DedupState) (db : Option Store) (storageFails : Bool)
    (p ty : String) (t1 t2 : Int)
    (hacc : decide d0 p t1 = Decision.accept)
    (hfail : db = none ∨ storageFails = true)
    (hwin : t2 - t1 < SCAN_COOLDOWN) :
    (onBarcodeScanned d0 db storageFails p ty t1).dedup = acceptUpdate p t1 ∧
    (onBarcodeScanned d0 db storageFails p ty t1).db = db ∧
    decide (onBarcodeScanned d0 db storageFails p ty t1).dedup p t2 =
      Decision.rejectBusy ∧
    decide (release (onBarcodeScanned d0 db storageFails p ty t1).dedup) p t2 =
      Decision.rejectDuplicate := by
  have hd := (onBarcodeScanned_accept_dedup d0 db storageFails p ty t1 hacc).1
  have hdb := onBarcodeScanned_accept_db_unchanged d0 db storageFails p ty t1
    hacc hfail
  refine ⟨hd, hdb, ?_, ?_⟩
  · rw [hd]
    simp [decide, acceptUpdate]
  · rw [hd]
    simp [decide, acceptUpdate, release, hwin]

/-- Witness for C9: payload `A` accepted at 1000 ms with no database
connection; the refs are updated, nothing is stored, and the repeat at
2000 ms is rejected busy before release and as a duplicate after. -/
theorem c9_dedup_state_before_persistence_witness :
    decide initialDedupState "A" 1000 = Decision.accept ∧
    ((none : Option Store) = none ∨ false = true) ∧
    (2000 : Int) - 1000 < SCAN_COOLDOWN ∧
    ((onBarcodeScanned initialDedupState none false "A" "qr" 1000).dedup =
        acceptUpdate "A" 1000 ∧
      (onBarcodeScanned initialDedupState none false "A" "qr" 1000).db = none ∧
      decide (onBarcodeScanned initialDedupState none false "A" "qr" 1000).dedup
          "A" 2000 = Decision.rejectBusy ∧
      decide (release (onBarcodeScanned initialDedupState none false "A" "qr"
          1000).dedup) "A" 2000 = Decision.rejectDuplicate) :=
  ⟨by decide, Or.inl rfl, by decide,
    c9_dedup_state_before_persistence initialDedupState none false "A" "qr"
      1000 2000 (by decide) (Or.inl rfl) (by decide)⟩

/-- C10: a rejected decode event (busy or duplicate) returns before any
side effect: the dedup refs, the store — hence the derived aggregate
statistics — are unchanged, no notification and no alert is emitted,
and no release timer is scheduled. -/
theorem c10_rejected_events_no_side_effects
    (d : DedupState) (db : Option Store) (storageFails : Bool)
    (data ty : String) (t : Int)
    (hrej : decide d data t ≠ Decision.accept) :
    onBarcodeScanned d db storageFails data ty t =
      { dedup := d, db := db, notifications := [], alerts := [],
        outcome := if decide d data t = Decision.rejectBusy then
          ScanOutcome.rejectedBusy else ScanOutcome.rejectedDuplicate,
        timerScheduled := false } ∧
    ((onBarcodeScanned d db storageFails data ty t).db.map obtenerEstadisticas) =
      db.map obtenerEstadisticas := by
  cases h : decide d data t with
  | accept => exact absurd h hrej
  | rejectBusy =>
      constructor
      · simp [onBarcodeScanned, h]
      · simp [onBarcodeScanned, h]
  | rejectDuplicate =>
      constructor
      · simp [onBarcodeScanned, h]
      · simp [onBarcodeScanned, h]

/-- Witness for C10: with the flag set, a decode event is rejected with
no change of state, no notification, no alert and no timer. -/
theorem c10_rejected_events_no_side_effects_witness :
    decide busyState "a" 1 ≠ Decision.accept ∧
    (onBarcodeScanned busyState (some emptyStore) false "a" "qr" 1 =
      { dedup := busyState, db := some emptyStore, notifications := [],
        alerts := [],
        outcome := if decide busyState "a" 1 = Decision.rejectBusy then
          ScanOutcome.rejectedBusy else ScanOutcome.rejectedDuplicate,
        timerScheduled := false } ∧
    ((onBarcodeScanned busyState (some emptyStore) false "a" "qr" 1).db.map
        obtenerEstadisticas) = (some emptyStore).map obtenerEstadisticas) :=
  ⟨by decide, c10_rejected_events_no_side_effects busyState (some emptyStore)
    false "a" "qr" 1 (by decide)⟩

/-- A store already holding one record with payload `ABC123`. -/
def storeWithABC : Store := insertarCodigo emptyStore "ABC123" "qr" 100

/-- C4 counterexample: a store already holds a record with payload
`ABC123`; a fresh decode event with that payload is accepted by the
deduplicator, yet the handler inserts nothing — the store still holds
one record — and only shows the already-scanned notification. The
existence check suppresses insertion, not merely the feedback. -/
theorem c4_counterexample :
    (onBarcodeScanned initialDedupState (some storeWithABC) false
        "ABC123" "qr" 5000).outcome = ScanOutcome.accepted ∧
    (onBarcodeScanned initialDedupState (some storeWithABC) false
        "ABC123" "qr" 5000).db = some storeWithABC ∧
    ((onBarcodeScanned initialDedupState (some storeWithABC) false
        "ABC123" "qr" 5000).db.map (fun s => s.records.length)) = some 1 ∧
    (onBarcodeScanned initialDedupState (some storeWithABC) false
        "ABC123" "qr" 5000).notifications = ["Código ya escaneado: ABC123"] := by
  decide

/-- C4 (amended): the store's insert itself never dedupes — three
inserts of payload `ABC123` leave three records with that payload,
`existe` true and `total` 3 — but the handler inserts only when the
payload is not already stored: for an accepted event whose payload
exists, the store is untouched and the feedback is the already-scanned
notification; when it does not exist, exactly one record is inserted
and the feedback is the new-code notification. -/
theorem c4_insert_gated_by_existence
    (d0 : DedupState) (s : Store) (data ty : String) (t u1 u2 u3 : Int)
    (hacc : decide d0 data t = Decision.accept) :
    ((insertarCodigo (insertarCodigo (insertarCodigo emptyStore "ABC123" "qr" u1)
        "ABC123" "qr" u2) "ABC123" "qr" u3).records.length = 3 ∧
      existeCodigo (insertarCodigo (insertarCodigo (insertarCodigo emptyStore
        "ABC123" "qr" u1) "ABC123" "qr" u2) "ABC123" "qr" u3) "ABC123" = true ∧
      (obtenerEstadisticas (insertarCodigo (insertarCodigo (insertarCodigo
        emptyStore "ABC123" "qr" u1) "ABC123" "qr" u2) "ABC123" "qr" u3)).total
        = 3 ∧
      ((insertarCodigo (insertarCodigo (insertarCodigo emptyStore "ABC123" "qr"
        u1) "ABC123" "qr" u2) "ABC123" "qr" u3).records.filter
          (fun r => r.data = "ABC123")).length = 3) ∧
    (existeCodigo s data = true →
      (onBarcodeScanned d0 (some s) false data ty t).db = some s ∧
      (onBarcodeScanned d0 (some s) false data ty t).notifications =
        ["Código ya escaneado: " ++ data]) ∧
    (existeCodigo s data = false →
      (onBarcodeScanned d0 (some s) false data ty t).db =
        some (insertarCodigo s data ty t) ∧
      (onBarcodeScanned d0 (some s) false data ty t).notifications =
        ["Nuevo código escaneado: " ++ data]) := by
  refine ⟨?_, ?_, ?_⟩
  · simp [insertarCodigo, emptyStore, existeCodigo, obtenerEstadisticas,
      countType]
  · intro hex
    unfold onBarcodeScanned
    rw [hacc]
    simp [hex]
  · intro hex
    unfold onBarcodeScanned
    rw [hacc]
    simp [hex]

/-- Witness for C4 (amended): a fresh payload `Z` accepted against the
`ABC123` store is inserted with the new-code notification. -/
theorem c4_insert_gated_by_existence_witness :
    decide initialDedupState "Z" 10 = Decision.accept ∧
    (((insertarCodigo (insertarCodigo (insertarCodigo emptyStore "ABC123" "qr" 1)
        "ABC123" "qr" 2) "ABC123" "qr" 3).records.length = 3 ∧
      existeCodigo (insertarCodigo (insertarCodigo (insertarCodigo emptyStore
        "ABC123" "qr" 1) "ABC123" "qr" 2) "ABC123" "qr" 3) "ABC123" = true ∧
      (obtenerEstadisticas (insertarCodigo (insertarCodigo (insertarCodigo
        emptyStore "ABC123" "qr" 1) "ABC123" "qr" 2) "ABC123" "qr" 3)).total
        = 3 ∧
      ((insertarCodigo (insertarCodigo (insertarCodigo emptyStore "ABC123" "qr"
        1) "ABC123" "qr" 2) "ABC123" "qr" 3).records.filter
          (fun r => r.data = "ABC123")).length = 3) ∧
    (existeCodigo storeWithABC "Z" = true →
      (onBarcodeScanned initialDedupState (some storeWithABC) false "Z" "qr"
        10).db = some storeWithABC ∧
      (onBarcodeScanned initialDedupState (some storeWithABC) false "Z" "qr"
        10).notifications = ["Código ya escaneado: " ++ "Z"]) ∧
    (existeCodigo storeWithABC "Z" = false →
      (onBarcodeScanned initialDedupState (some storeWithABC) false "Z" "qr"
        10).db = some (insertarCodigo storeWithABC "Z" "qr" 10) ∧
      (onBarcodeScanned initialDedupState (some storeWithABC) false "Z" "qr"
        10).notifications = ["Nuevo código escaneado: " ++ "Z"])) :=
  ⟨by decide, c4_insert_gated_by_existence initialDedupState storeWithABC
    "Z" "qr" 10 1 2 3 (by decide)⟩

/-! ### Sample records for concrete scenarios -/

/-- Sample record with payload `A`. -/
def recA : ScannedCode := { id := "1", data := "A", type := "qr", timestamp := 101 }

/-- Sample record with payload `B`. -/
def recB : ScannedCode := { id := "2", data := "B", type := "qr", timestamp := 102 }

/-- Sample record with payload `C`. -/
def recC : ScannedCode := { id := "3", data := "C", type := "code128", timestamp := 103 }

/-- Sample record with payload `D`. -/
def recD : ScannedCode := { id := "4", data := "D", type := "qr", timestamp := 104 }

/-- Sample record with payload `E`. -/
def recE : ScannedCode := { id := "5", data := "E", type := "aztec", timestamp := 105 }

/-- The send loop on a list whose every send succeeds issues one request
per record, in list order, and completes. -/
theorem syncLoop_all_ok (sendOk : ScannedCode → Bool) (codes : List ScannedCode)
    (hok : ∀ cd ∈ codes, sendOk cd = true) :
    syncLoop sendOk codes = (codes.map mkRequest, true) := by
  induction codes with
  | nil => simp [syncLoop]
  | cons c rest ih =>
      have hc : sendOk c = true := hok c (by simp)
      have ih' := ih (fun x hx => hok x (by simp [hx]))
      simp [syncLoop, hc, ih']

/-- The send loop stops at the first failing record: it issues the
requests of the successful prefix plus the failing attempt, and reports
failure; the records after the failure are never sent. -/
theorem syncLoop_stops_at_failure (sendOk : ScannedCode → Bool)
    (before : List ScannedCode) (c : ScannedCode) (after : List ScannedCode)
    (hbefore : ∀ b ∈ before, sendOk b = true) (hc : sendOk c = false) :
    syncLoop sendOk (before ++ c :: after) =
      ((before ++ [c]).map mkRequest, false) := by
  induction before with
  | nil => simp [syncLoop, hc]
  | cons b rest ih =>
      have hb : sendOk b = true := hbefore b (by simp)
      have ih' := ih (fun x hx => hbefore x (by simp [hx]))
      simp [syncLoop, hb, ih']

/-- C5 counterexample: a remote sync of three records failing on the
second (1 record sent before the failure) and a remote sync of five
records failing on the fourth (3 records sent before the failure)
produce the identical outcome with the identical fixed alert text: the
failure report carries no partial count, so it cannot equal
`SyncFailed(partialCount)` with `partialCount = k`. -/
theorem c5_counterexample :
    (syncWithServer false [recA, recB, recC] (fun cd => cd.data != "B")).1 =
      SyncOutcome.failureAlert ∧
    (syncWithServer false [recA, recB, recC, recD, recE]
        (fun cd => cd.data != "D")).1 = SyncOutcome.failureAlert ∧
    ([recA, recB, recC].takeWhile (fun cd => cd.data != "B")).length = 1 ∧
    ([recA, recB, recC, recD, recE].takeWhile
        (fun cd => cd.data != "D")).length = 3 ∧
    (1 : Nat) ≠ 3 ∧
    alertText (syncWithServer false [recA, recB, recC]
        (fun cd => cd.data != "B")).1 =
      "No se pudieron sincronizar los códigos. Verifica tu conexión." := by
  decide

/-- C5 (amended): if the (k+1)-th record's send fails after the first k
succeeded, the remote sync issues exactly those k+1 requests — no later
record is ever sent — and reports the fixed failure alert, which
carries no partial count. -/
theorem c5_failure_stops_and_reports_generic
    (before : List ScannedCode) (c : ScannedCode) (after : List ScannedCode)
    (sendOk : ScannedCode → Bool)
    (hbefore : ∀ b ∈ before, sendOk b = true) (hc : sendOk c = false) :
    syncWithServer false (before ++ c :: after) sendOk =
      (SyncOutcome.failureAlert, (before ++ [c]).map mkRequest) ∧
    ((before ++ [c]).map mkRequest).length = before.length + 1 := by
  have hloop := syncLoop_stops_at_failure sendOk before c after hbefore hc
  have hne : (before ++ c :: after).length ≠ 0 := by simp
  constructor
  · simp [syncWithServer, hne, hloop]
  · simp

/-- Witness for C5 (amended): the spec scenario — the second of three
records fails — issues exactly two requests and the fixed failure
alert. -/
theorem c5_failure_stops_and_reports_generic_witness :
    (∀ b ∈ [recA], (fun cd => cd.data != "B") b = true) ∧
    (fun cd => cd.data != "B") recB = false ∧
    (syncWithServer false ([recA] ++ recB :: [recC])
        (fun cd => cd.data != "B") =
      (SyncOutcome.failureAlert, ([recA] ++ [recB]).map mkRequest) ∧
    (([recA] ++ [recB]).map mkRequest).length = [recA].length + 1) :=
  ⟨by decide, by decide,
    c5_failure_stops_and_reports_generic [recA] recB [recC]
      (fun cd => cd.data != "B") (by decide) (by decide)⟩

/-- C7: in local-only mode, syncing a non-empty record list issues zero
network requests and reports the local-mode notice carrying the number
of records held. -/
theorem c7_local_mode_no_network (scannedCodes : List ScannedCode)
    (sendOk : ScannedCode → Bool) (h : scannedCodes ≠ []) :
    syncWithServer true scannedCodes sendOk =
      (SyncOutcome.localModeAlert scannedCodes.length, []) := by
  have hne : scannedCodes.length ≠ 0 := by
    intro hh
    exact h (List.length_eq_zero.mp hh)
  simp [syncWithServer, hne]

/-- Witness for C7: `sync([r1, r2])` in local mode yields the notice
with count 2 and no requests. -/
theorem c7_local_mode_no_network_witness :
    ([recA, recB] : List ScannedCode) ≠ [] ∧
    syncWithServer true [recA, recB] (fun _ => true) =
      (SyncOutcome.localModeAlert 2, []) :=
  ⟨by decide, c7_local_mode_no_network [recA, recB] (fun _ => true) (by decide)⟩

/-- C8 counterexample: the legacy screen variant's sync request for a
concrete record has a body whose fields are exactly `data` and `type` —
no `timestamp` — and in both variants the Content-Type header is the
string `application/json;encoding=utf-8`, not `application/json`. -/
theorem c8_counterexample :
    ((mkRequestLegacy recA).body.map Prod.fst) = ["data", "type"] ∧
    ((mkRequestLegacy recA).body.lookup "timestamp") = none ∧
    (mkRequestLegacy recA).contentType ≠ "application/json" ∧
    (mkRequest recA).contentType ≠ "application/json" := by
  decide

/-- C8 (amended): remote sync issues one POST per record, in list order,
each to the `/codigos` path with Content-Type
`application/json;encoding=utf-8`; in the main screen (and
`src/app/index.tsx`) the body holds exactly the `data`, `type` and
`timestamp` fields of the record, while in the legacy variant it holds
exactly `data` and `type`. -/
theorem c8_request_shape (scannedCodes : List ScannedCode)
    (sendOk : ScannedCode → Bool) (hok : ∀ cd ∈ scannedCodes, sendOk cd = true)
    (c : ScannedCode) :
    (syncWithServer false scannedCodes sendOk).2 = scannedCodes.map mkRequest ∧
    (mkRequest c).path = "/codigos" ∧
    (mkRequest c).method = "POST" ∧
    (mkRequest c).contentType = "application/json;encoding=utf-8" ∧
    (mkRequest c).body = [("data", JsonValue.str c.data),
      ("type", JsonValue.str c.type), ("timestamp", JsonValue.num c.timestamp)] ∧
    (mkRequestLegacy c).path = "/codigos" ∧
    (mkRequestLegacy c).method = "POST" ∧
    (mkRequestLegacy c).contentType = "application/json;encoding=utf-8" ∧
    (mkRequestLegacy c).body = [("data", JsonValue.str c.data),
      ("type", JsonValue.str c.type)] := by
  refine ⟨?_, rfl, rfl, rfl, rfl, rfl, rfl, rfl, rfl⟩
  by_cases h0 : scannedCodes.length = 0
  · have hnil : scannedCodes = [] := List.length_eq_zero.mp h0
    subst hnil
    simp [syncWithServer]
  · simp [syncWithServer, h0, syncLoop_all_ok sendOk scannedCodes hok]

/-- Witness for C8 (amended): a fully successful sync of two records
issues their two requests in order. -/
theorem c8_request_shape_witness :
    (∀ cd ∈ [recA, recB], (fun _ => true) cd = true) ∧
    ((syncWithServer false [recA, recB] (fun _ => true)).2 =
        [recA, recB].map mkRequest ∧
      (mkRequest recC).path = "/codigos" ∧
      (mkRequest recC).method = "POST" ∧
      (mkRequest recC).contentType = "application/json;encoding=utf-8" ∧
      (mkRequest recC).body = [("data", JsonValue.str recC.data),
        ("type", JsonValue.str recC.type),
        ("timestamp", JsonValue.num recC.timestamp)] ∧
      (mkRequestLegacy recC).path = "/codigos" ∧
      (mkRequestLegacy recC).method = "POST" ∧
      (mkRequestLegacy recC).contentType = "application/json;encoding=utf-8" ∧
      (mkRequestLegacy recC).body = [("data", JsonValue.str recC.data),
        ("type", JsonValue.str recC.type)]) :=
  ⟨by decide, c8_request_shape [recA, recB] (fun _ => true) (by decide) recC⟩

/-- C6 counterexample: a storage failure during the data refresh is
swallowed silently — `updateData` only logs, keeps the previous screen
state, shows no alert and propagates no error — contradicting the claim
that no core operation logs a storage error and returns as if it had
succeeded. -/
theorem c6_counterexample :
    updateData { scannedCodes := [recA], stats := obtenerEstadisticas storeWithABC }
        (Except.error StorageError.backendFailure)
        (Except.ok (obtenerEstadisticas emptyStore)) =
      { ui := { scannedCodes := [recA], stats := obtenerEstadisticas storeWithABC },
        logged := ["Error actualizando datos"], alerts := [],
        propagatedError := none } := by
  decide

/-- C6 (amended): storage failures in the scan-processing, delete and
clear operations are surfaced as user-facing error alerts, each after
exactly one backend attempt and with no retry; but the data-refresh
operation `updateData` swallows read and stats failures silently — it
only logs, keeps the screen state and surfaces nothing. -/
theorem c6_error_surfacing
    (ui : UiState) (e : StorageError) (q : Except StorageError Stats)
    (s : Store) (i data ty : String) (t : Int) (d0 : DedupState)
    (hacc : decide d0 data t = Decision.accept) :
    updateData ui (Except.error e) q =
      { ui := ui, logged := ["Error actualizando datos"], alerts := [],
        propagatedError := none } ∧
    deleteCode (some s) true i =
      { db := some s, alerts := ["No se pudo eliminar el código"],
        logged := ["Error eliminando código"], attempts := 1 } ∧
    clearScannedCodes (some s) true =
      { db := some s, alerts := ["No se pudo limpiar el historial"],
        logged := ["Error limpiando códigos"], attempts := 1 } ∧
    (onBarcodeScanned d0 (some s) true data ty t).alerts =
      ["No se pudo procesar el código escaneado"] := by
  refine ⟨rfl, rfl, rfl, ?_⟩
  unfold onBarcodeScanned
  rw [hacc]
  rfl

/-- Witness for C6 (amended): concrete refresh, delete, clear and scan
calls against a failing backend. -/
theorem c6_error_surfacing_witness :
    decide initialDedupState "A" 7 = Decision.accept ∧
    (updateData { scannedCodes := [], stats := obtenerEstadisticas emptyStore }
        (Except.error StorageError.backendFailure)
        (Except.ok (obtenerEstadisticas emptyStore)) =
      { ui := { scannedCodes := [], stats := obtenerEstadisticas emptyStore },
        logged := ["Error actualizando datos"], alerts := [],
        propagatedError := none } ∧
    deleteCode (some emptyStore) true "1" =
      { db := some emptyStore, alerts := ["No se pudo eliminar el código"],
        logged := ["Error eliminando código"], attempts := 1 } ∧
    clearScannedCodes (some emptyStore) true =
      { db := some emptyStore, alerts := ["No se pudo limpiar el historial"],
        logged := ["Error limpiando códigos"], attempts := 1 } ∧
    (onBarcodeScanned initialDedupState (some emptyStore) true "A" "qr" 7).alerts =
      ["No se pudo procesar el código escaneado"]) :=
  ⟨by decide, c6_error_surfacing
    { scannedCodes := [], stats := obtenerEstadisticas emptyStore }
    StorageError.backendFailure (Except.ok (obtenerEstadisticas emptyStore))
    emptyStore "1" "A" "qr" 7 initialDedupState (by decide)⟩

end ScanQR
